import Mathlib

/-!
Verification of the `weather_tool` package: a client-side, time-expiring
cache in front of a single remote weather endpoint.

The embedding translates `src/weather_tool/client.py` and
`src/weather_tool/models.py`:

* Python `str` is Lean `String`; `str.lower` / `str.strip` are modelled
  character-wise on `String.data` (`pyLower`, `pyStrip`), with Python's
  whitespace set restricted to its ASCII members.
* `datetime.now()` values are modelled as integers counting microseconds
  (Python datetimes have microsecond resolution); the fixed cache
  duration `timedelta(minutes=10)` is `600000000` microseconds.
* Temperatures (Python floats) are modelled as rationals; Python's
  `round(v, 1)` (round half to even) is `round1`.
* The mutable `WeatherTool` object is modelled by explicit state passing:
  the cache dictionary is an association list with at most the dict
  semantics (insert replaces, delete removes the key).
* The network is abstracted: `get_weather` takes the outcome of the one
  possible `_fetch_from_api` call as a parameter, and `_fetch_from_api`
  itself is a function of the HTTP outcome (status/body or transport
  failure).
* Python exceptions become an `Except` value in the error taxonomy
  `WeatherError` (`exceptions.py`): `WeatherAPIError`, `CityNotFoundError`,
  `InvalidAPIKeyError`, `NetworkError`.  The spec's abstract names map to
  these: `InvalidInputError` and `RemoteServiceError` and
  `MalformedResponseError` are the `WeatherAPIError` class with the
  corresponding message, `InvalidCredentialError` is `InvalidAPIKeyError`.
-/

namespace WeatherTool

/-! ### Python string primitives -/

/-- Membership in Python's `str.strip` whitespace set, restricted to its
ASCII members: space, tab, newline, carriage return, vertical tab, form
feed. -/
def pySpace (c : Char) : Bool :=
  c.toNat = 32 || c.toNat = 9 || c.toNat = 10 || c.toNat = 13 ||
    c.toNat = 11 || c.toNat = 12

/-- Strip leading and trailing whitespace from a character list (the
character-wise content of Python `str.strip()`). -/
def stripChars (l : List Char) : List Char :=
  ((l.dropWhile pySpace).reverse.dropWhile pySpace).reverse

/-- Python `str.strip()`. -/
def pyStrip (s : String) : String := ⟨stripChars s.data⟩

/-- Python `str.lower()` (modelled on the basic-latin range, the range
Lean's `Char.toLower` handles). -/
def pyLower (s : String) : String := ⟨s.data.map Char.toLower⟩

/-- Cache-key normalization used by `get_weather`:
`city.lower().strip()`. -/
def normalizeCity (city : String) : String := pyStrip (pyLower city)

end WeatherTool

namespace WeatherTool

/-! ### Data model (`models.py`) -/

/-- Python `round(x)` for a rational `x`: round to the nearest integer,
ties to even (banker's rounding, the semantics of Python 3 `round`). -/
def pyRound (x : ℚ) : ℤ :=
  if x - ⌊x⌋ < 1/2 then ⌊x⌋
  else if 1/2 < x - ⌊x⌋ then ⌊x⌋ + 1
  else if ⌊x⌋ % 2 = 0 then ⌊x⌋ else ⌊x⌋ + 1

/-- Python `round(x, 1)`: round to one decimal place. -/
def round1 (x : ℚ) : ℚ := (pyRound (x * 10) : ℚ) / 10

/-- Temperature record `WeatherMain` of `models.py`: current, min, max
temperature and feels-like (floats, here rationals) plus integer
humidity. -/
structure WeatherMain where
  temp : ℚ
  temp_min : ℚ
  temp_max : ℚ
  humidity : ℤ
  feels_like : ℚ
  deriving DecidableEq

/-- The `validate_temperature` validator of `WeatherMain` in `models.py`:
applied (only) to the fields `temp`, `temp_min` and `temp_max`, it
rejects values outside `[-50, 60]` and rounds accepted values to one
decimal place. -/
def validate_temperature (v : ℚ) : Except String ℚ :=
  if -50 ≤ v ∧ v ≤ 60 then .ok (round1 v)
  else .error ("Temperatura " ++ toString v ++ " invalida")

/-- Pydantic construction of a `WeatherMain`: the fields in declaration
order, `validate_temperature` on `temp`, `temp_min`, `temp_max`, the
`ge=0, le=100` bound on `humidity`, and `feels_like` unvalidated (the
validator list in the source names only the three temperature fields).
A failure models pydantic's `ValidationError`. -/
def WeatherMain.build (temp temp_min temp_max : ℚ) (humidity : ℤ)
    (feels_like : ℚ) : Except String WeatherMain := do
  let t ← validate_temperature temp
  let tn ← validate_temperature temp_min
  let tx ← validate_temperature temp_max
  if 0 ≤ humidity ∧ humidity ≤ 100 then
    .ok ⟨t, tn, tx, humidity, feels_like⟩
  else
    .error "humidity fora do intervalo 0-100"

/-- Weather condition descriptor `WeatherDescription` of `models.py`. -/
structure WeatherDescription where
  main : String
  description : String
  icon : String
  deriving DecidableEq

/-- Top-level `WeatherData` record of `models.py`.  `timestamp` is the
`datetime.now()` value supplied at construction (microseconds). -/
structure WeatherData where
  city_name : String
  country : Option String
  main : WeatherMain
  weather : List WeatherDescription
  timestamp : ℤ
  deriving DecidableEq

/-- Location block of the agent format dictionary. -/
structure AgentLocation where
  city : String
  country : Option String
  deriving DecidableEq

/-- Temperature block of the agent format dictionary. -/
structure AgentTemperature where
  current : ℚ
  min : ℚ
  max : ℚ
  feels_like : ℚ
  deriving DecidableEq

/-- The dictionary returned by `WeatherData.to_agent_format`; the
`timestamp` field models the instant encoded by the ISO-8601 string
`self.timestamp.isoformat()`. -/
structure AgentFormat where
  location : AgentLocation
  temperature : AgentTemperature
  conditions : String
  humidity : ℤ
  timestamp : ℤ
  deriving DecidableEq

/-- `WeatherData.to_agent_format` of `models.py`. -/
def WeatherData.to_agent_format (w : WeatherData) : AgentFormat where
  location := ⟨w.city_name, w.country⟩
  temperature := ⟨w.main.temp, w.main.temp_min, w.main.temp_max, w.main.feels_like⟩
  conditions := match w.weather with
    | [] => "unknown"
    | d :: _ => d.description
  humidity := w.main.humidity
  timestamp := w.timestamp

/-- `WeatherData.to_display_format` of `models.py`: the fixed multi-line
f-string template. -/
def WeatherData.to_display_format (w : WeatherData) : String :=
  "\n\u1F321 Clima em " ++ w.city_name ++
    "\nTemperatura: " ++ toString w.main.temp ++ "\u00B0C (sensacao: " ++
    toString w.main.feels_like ++ "\u00B0C)\nCondicoes: " ++
    (match w.weather with
      | [] => "N/A"
      | d :: _ => d.description) ++
    "\nUmidade: " ++ toString w.main.humidity ++ "%\n"

/-! ### Error taxonomy (`exceptions.py`) -/

/-- The exception classes of `exceptions.py`, each carrying its message.
`weatherAPIError` is both the base class and the generic kind raised
directly (the spec's `InvalidInputError`, `RemoteServiceError` and
`MalformedResponseError` are `WeatherAPIError` instances distinguished
by message). -/
inductive WeatherError where
  | weatherAPIError (msg : String)
  | cityNotFoundError (msg : String)
  | invalidAPIKeyError (msg : String)
  | networkError (msg : String)
  deriving DecidableEq

end WeatherTool

namespace WeatherTool

/-! ### Remote response shape and parsing (`client.py`, `_parse_response`)

The JSON body is modelled as a structure of optional fields: `none`
models an absent key (a `KeyError` on subscripting), `some` a present
one.  Unknown extra keys of the real JSON are, as in the source, simply
never read, so they need no representation. -/

/-- The `"main"` block of the OpenWeatherMap response body. -/
structure ApiMain where
  temp : Option ℚ
  temp_min : Option ℚ
  temp_max : Option ℚ
  humidity : Option ℤ
  feels_like : Option ℚ
  deriving DecidableEq

/-- One element of the `"weather"` list of the response body. -/
structure ApiWeatherItem where
  main : Option String
  description : Option String
  icon : Option String
  deriving DecidableEq

/-- The response body fields read by `_parse_response`.  `sys_country`
stands for `data.get("sys", {}).get("country")` (always optional). -/
structure ApiResponse where
  name : Option String
  main : Option ApiMain
  weather : Option (List ApiWeatherItem)
  sys_country : Option String
  deriving DecidableEq

/-- The message of the `KeyError` handler in `_parse_response`:
`f"Dados incompletos da API: campo {e} nao encontrado"`. -/
def keyErrorMsg (field : String) : String :=
  "Dados incompletos da API: campo " ++ field ++ " nao encontrado"

/-- Subscripting `data[field]`: a present key yields its value, an
absent one raises `KeyError(field)`, caught by `_parse_response` and
re-raised as `WeatherAPIError` with `keyErrorMsg`. -/
def requireField (field : String) (v : Option α) : Except WeatherError α :=
  match v with
  | some x => .ok x
  | none => .error (.weatherAPIError (keyErrorMsg field))

/-- One element of the `weather` list comprehension of
`_parse_response`: the three subscripts of the `WeatherDescription(...)`
call. -/
def parse_weather_item (w : ApiWeatherItem) : Except WeatherError WeatherDescription := do
  let wmain ← requireField "main" w.main
  let wdescription ← requireField "description" w.description
  let wicon ← requireField "icon" w.icon
  pure ⟨wmain, wdescription, wicon⟩

/-- The time-independent part of `_parse_response`, in the evaluation
order of the source: the five subscripts of the `WeatherMain(...)` call,
pydantic validation of `WeatherMain`, the `weather` list comprehension,
then `data["name"]` and `data.get("sys", {}).get("country")` for the
`WeatherData(...)` call.  A pydantic `ValidationError` is caught by the
generic `except Exception` handler of the source. -/
def parse_core (data : ApiResponse) :
    Except WeatherError (String × Option String × WeatherMain × List WeatherDescription) := do
  let m ← requireField "main" data.main
  let temp ← requireField "temp" m.temp
  let temp_min ← requireField "temp_min" m.temp_min
  let temp_max ← requireField "temp_max" m.temp_max
  let humidity ← requireField "humidity" m.humidity
  let feels_like ← requireField "feels_like" m.feels_like
  let main ← match WeatherMain.build temp temp_min temp_max humidity feels_like with
    | .ok main => .ok main
    | .error e => .error (.weatherAPIError ("Erro ao processar dados: " ++ e))
  let weather_list ← (data.weather.getD []).mapM parse_weather_item
  let name ← requireField "name" data.name
  .ok (name, data.sys_country, main, weather_list)

/-- `_parse_response` of `client.py`.  `now` is the `datetime.now()`
value that the `default_factory` of `WeatherData.timestamp` reads when
the record is constructed. -/
def parse_response (data : ApiResponse) (now : ℤ) : Except WeatherError WeatherData :=
  match parse_core data with
  | .ok (name, country, main, weather_list) => .ok ⟨name, country, main, weather_list, now⟩
  | .error e => .error e

/-- The first required top-level or `main`-block field that
`_parse_response` finds missing, in the source's evaluation order;
`data["name"]` is only reached when pydantic validation of the
`WeatherMain` succeeded and every `weather` list item is complete. -/
def firstRequiredMissing (data : ApiResponse) : Option String :=
  match data.main with
  | none => some "main"
  | some m =>
    match m.temp with
    | none => some "temp"
    | some temp =>
      match m.temp_min with
      | none => some "temp_min"
      | some temp_min =>
        match m.temp_max with
        | none => some "temp_max"
        | some temp_max =>
          match m.humidity with
          | none => some "humidity"
          | some humidity =>
            match m.feels_like with
            | none => some "feels_like"
            | some feels_like =>
              if (WeatherMain.build temp temp_min temp_max humidity feels_like).isOk ∧
                  (data.weather.getD []).all
                    (fun w => w.main.isSome && w.description.isSome && w.icon.isSome) then
                match data.name with
                | none => some "name"
                | some _ => none
              else none

/-! ### Fetch client (`client.py`, `_fetch_from_api`) -/

/-- Outcome of the single `requests.get` call of `_fetch_from_api`: a
response with a status code, reason text and (for success statuses)
parsed JSON body, or one of the transport failures the source handles
(`Timeout`, other `RequestException`s). -/
inductive HttpOutcome where
  | response (status : ℕ) (reason : String) (body : ApiResponse)
  | timeout
  | connectionFailure (msg : String)
  deriving DecidableEq

/-- The string of a `requests.HTTPError`, which embeds the status code
and the raw reason message of the response. -/
def httpErrorString (status : ℕ) (reason : String) : String :=
  toString status ++ " Error: " ++ reason

/-- `_fetch_from_api` of `client.py`.  `response.raise_for_status()`
raises `HTTPError` exactly for statuses in `[400, 600)` — these are the
non-success statuses; the handler then dispatches on
`response.status_code`.  Every other status (below 400, or a
nonconformant one of 600 and above) proceeds to `response.json()` and
`_parse_response`. -/
def fetch_from_api (city : String) (outcome : HttpOutcome) (now : ℤ) :
    Except WeatherError WeatherData :=
  match outcome with
  | .response status reason body =>
    if 400 ≤ status ∧ status < 600 then
      if status = 404 then
        .error (.cityNotFoundError ("Cidade " ++ city ++ " nao encontrada"))
      else if status = 401 then
        .error (.invalidAPIKeyError "API key invalida")
      else
        .error (.weatherAPIError ("Erro na API: " ++ httpErrorString status reason))
    else
      parse_response body now
  | .timeout => .error (.networkError ("Timeout ao buscar " ++ city))
  | .connectionFailure msg => .error (.networkError ("Erro de conexao: " ++ msg))

/-! ### Cache store (`client.py`, `WeatherTool`) -/

/-- One value of the `self._cache` dictionary: the parsed record and its
insertion time (`datetime.now()` at store time, microseconds). -/
structure CacheEntry where
  data : WeatherData
  timestamp : ℤ
  deriving DecidableEq

/-- The `self._cache` dictionary, keyed by normalized city name.  A
Python dict holds at most one entry per key; insertion and deletion
below preserve exactly that semantics. -/
abbrev Cache := List (String × CacheEntry)

/-- Dictionary lookup `self._cache[city_key]` / `city_key in self._cache`. -/
def cacheLookup (c : Cache) (k : String) : Option CacheEntry :=
  (c.find? (fun p => p.1 = k)).map (fun p => p.2)

/-- Dictionary deletion `del self._cache[city_key]`. -/
def cacheErase (c : Cache) (k : String) : Cache :=
  c.filter (fun p => p.1 ≠ k)

/-- Dictionary assignment `self._cache[city_key] = entry`. -/
def cacheInsert (c : Cache) (k : String) (e : CacheEntry) : Cache :=
  cacheErase c k ++ [(k, e)]

/-- `self._cache_duration = timedelta(minutes=10)`, in microseconds. -/
def cache_duration : ℤ := 600000000

/-- `_is_cache_valid` of `client.py`: the entry age (`datetime.now()`
minus the stored timestamp) must be strictly below the cache duration. -/
def is_cache_valid (now : ℤ) (entry : CacheEntry) : Bool :=
  now - entry.timestamp < cache_duration

deriving instance DecidableEq for Except

/-- Observable outcome of one `get_weather` call: the returned record or
raised error, the cache dictionary afterwards, and how many times
`_fetch_from_api` was invoked during the call. -/
structure GetWeatherResult where
  result : Except WeatherError WeatherData
  cache : Cache
  fetchCount : ℕ
  deriving DecidableEq

/-- The miss path of `get_weather`: one `_fetch_from_api` call whose
outcome is `fetch`; on success the record is stored under `city_key`
with the current timestamp, on failure the error propagates and nothing
is stored. -/
def fetchStore (cache : Cache) (now : ℤ) (city_key : String)
    (fetch : Except WeatherError WeatherData) : GetWeatherResult :=
  match fetch with
  | .ok wd => ⟨.ok wd, cacheInsert cache city_key ⟨wd, now⟩, 1⟩
  | .error e => ⟨.error e, cache, 1⟩

/-- `get_weather` of `client.py`, at call time `now`, with `fetch` the
outcome `_fetch_from_api(city)` would produce if invoked: the empty-city
guard, then cache hit, lazy eviction of a stale entry, and the miss
path. -/
def get_weather (cache : Cache) (now : ℤ) (city : String)
    (fetch : Except WeatherError WeatherData) : GetWeatherResult :=
  if city = "" ∨ pyStrip city = "" then
    ⟨.error (.weatherAPIError "Nome da cidade nao pode estar vazio"), cache, 0⟩
  else
    let city_key := normalizeCity city
    match cacheLookup cache city_key with
    | some entry =>
      if is_cache_valid now entry then
        ⟨.ok entry.data, cache, 0⟩
      else
        fetchStore (cacheErase cache city_key) now city_key fetch
    | none => fetchStore cache now city_key fetch

/-- The dictionary returned by `get_cache_info`. -/
structure CacheInfo where
  total_cities : ℕ
  valid_entries : ℕ
  expired_entries : ℕ
  cache_duration_minutes : ℚ
  cached_cities : List String
  deriving DecidableEq

/-- `get_cache_info` of `client.py`. -/
def get_cache_info (cache : Cache) (now : ℤ) : CacheInfo where
  total_cities := cache.length
  valid_entries := (cache.filter (fun p => is_cache_valid now p.2)).length
  expired_entries := cache.length - (cache.filter (fun p => is_cache_valid now p.2)).length
  cache_duration_minutes := 10
  cached_cities := cache.map (fun p => p.1)

/-- `clear_cache` of `client.py`: `self._cache.clear()` empties the
dictionary; the entry count is computed only for the log line, and the
method returns `None` (modelled as `none`). -/
def clear_cache (_cache : Cache) : Option ℕ × Cache :=
  (none, [])

end WeatherTool

namespace WeatherTool

/-! ### Auxiliary definitions for the statements -/

/-- The display template with the conditions fragment abstracted: the
fixed text of `to_display_format` around the inline conditional. -/
def displayTemplate (w : WeatherData) (cond : String) : String :=
  "\n\u1F321 Clima em " ++ w.city_name ++
    "\nTemperatura: " ++ toString w.main.temp ++ "\u00B0C (sensacao: " ++
    toString w.main.feels_like ++ "\u00B0C)\nCondicoes: " ++ cond ++
    "\nUmidade: " ++ toString w.main.humidity ++ "%\n"

/-- Does the body lack one of the documented required fields (`name`,
`main`, or one of the five numeric fields of `main`)?  `weather` and the
country code are documented optional. -/
def anyRequiredMissing (data : ApiResponse) : Bool :=
  data.name.isNone || data.main.isNone ||
    (match data.main with
      | none => false
      | some m => m.temp.isNone || m.temp_min.isNone || m.temp_max.isNone ||
          m.humidity.isNone || m.feels_like.isNone)

/-- Concrete parsed record used by witnesses and counterexamples. -/
def wdDemo : WeatherData :=
  ⟨"paris", none, ⟨20, 10, 30, 50, 21⟩, [], 0⟩

/-- Concrete one-entry cache: `wdDemo` stored under `"paris"` at time 0. -/
def cacheDemo : Cache := [("paris", ⟨wdDemo, 0⟩)]

/-- Concrete parsed record with a non-empty description list. -/
def wdCloudsDemo : WeatherData :=
  ⟨"paris", some "FR", ⟨20, 10, 30, 50, 21⟩, [⟨"Clouds", "nublado", "04d"⟩], 0⟩

/-- Concrete failing fetch outcome. -/
def fetchFailDemo : Except WeatherError WeatherData :=
  .error (.networkError "Timeout ao buscar paris")

/-- Concrete complete response body. -/
def bodyDemo : ApiResponse :=
  ⟨some "paris", some ⟨some 20, some 10, some 30, some 50, some 21⟩, none, none⟩

/-- Concrete response body whose `main` block lacks `temp`. -/
def bodyMissingTempDemo : ApiResponse :=
  ⟨some "paris", some ⟨none, some 10, some 30, some 50, some 21⟩, none, none⟩

/-! ### Helper lemmas: strings -/

theorem pySpace_eq_false_of_ge {c : Char} (h : 65 ≤ c.toNat) :
    pySpace c = false := by
  simp only [pySpace, Bool.or_eq_false_iff, decide_eq_false_iff_not]
  omega

theorem pySpace_toLower (c : Char) : pySpace c.toLower = pySpace c := by
  have hdef : c.toLower =
      if c.toNat ≥ 65 ∧ c.toNat ≤ 90 then Char.ofNat (c.toNat + 32) else c := rfl
  rw [hdef]
  by_cases h : c.toNat ≥ 65 ∧ c.toNat ≤ 90
  · rw [if_pos h]
    have hv : Nat.isValidChar (c.toNat + 32) := Or.inl (by omega)
    have h2 : (Char.ofNat (c.toNat + 32)).toNat = c.toNat + 32 := by
      rw [Char.ofNat, dif_pos hv]
      rfl
    rw [pySpace_eq_false_of_ge (c := Char.ofNat (c.toNat + 32)) (by omega),
      pySpace_eq_false_of_ge (by omega)]
  · rw [if_neg h]

theorem dropWhile_forall_iff (p : α → Bool) (l : List α) :
    (∀ c ∈ l.dropWhile p, p c) ↔ ∀ c ∈ l, p c := by
  constructor
  · intro h c hc
    rcases List.mem_append.mp
        ((List.takeWhile_append_dropWhile (p := p) (l := l)) ▸ hc) with h1 | h2
    · exact List.mem_takeWhile_imp h1
    · exact h c h2
  · intro h c hc
    exact h c ((List.dropWhile_sublist (p := p) (l := l)).mem hc)

theorem stripChars_eq_nil_iff (l : List Char) :
    stripChars l = [] ↔ ∀ c ∈ l, pySpace c := by
  unfold stripChars
  rw [List.reverse_eq_nil_iff, List.dropWhile_eq_nil_iff]
  constructor
  · intro h
    rw [← dropWhile_forall_iff pySpace l]
    intro c hc
    exact h c (List.mem_reverse.mpr hc)
  · intro h c hc
    exact h c ((List.dropWhile_sublist (p := pySpace) (l := l)).mem
      (List.mem_reverse.mp hc))

theorem stripChars_map_toLower_eq_nil_iff (l : List Char) :
    stripChars (l.map Char.toLower) = [] ↔ stripChars l = [] := by
  rw [stripChars_eq_nil_iff, stripChars_eq_nil_iff]
  constructor
  · intro h c hc
    have := h c.toLower (List.mem_map_of_mem Char.toLower hc)
    rwa [pySpace_toLower] at this
  · intro h c hc
    obtain ⟨d, hd, rfl⟩ := List.mem_map.mp hc
    rw [pySpace_toLower]
    exact h d hd

theorem pyStrip_pyLower_eq_empty_iff (s : String) :
    pyStrip (pyLower s) = "" ↔ pyStrip s = "" := by
  have hempty : ("" : String) = ⟨[]⟩ := rfl
  simp only [pyStrip, pyLower, hempty, String.ext_iff]
  exact stripChars_map_toLower_eq_nil_iff s.data

theorem pyStrip_empty : pyStrip "" = "" := rfl

end WeatherTool

namespace WeatherTool

/-! ### Helper lemmas: the cache dictionary -/

theorem find?_cacheErase_eq_none (c : Cache) (k : String) :
    (cacheErase c k).find? (fun p => p.1 = k) = none := by
  rw [List.find?_eq_none]
  intro p hp
  have h2 := (List.mem_filter.mp hp).2
  simpa using h2

theorem cacheLookup_erase_self (c : Cache) (k : String) :
    cacheLookup (cacheErase c k) k = none := by
  unfold cacheLookup
  rw [find?_cacheErase_eq_none]
  rfl

theorem cacheLookup_insert_self (c : Cache) (k : String) (e : CacheEntry) :
    cacheLookup (cacheInsert c k e) k = some e := by
  unfold cacheInsert cacheLookup
  rw [List.find?_append, find?_cacheErase_eq_none]
  simp [List.find?]

end WeatherTool

namespace WeatherTool

/-! ### Helper lemmas: rounding and `WeatherMain` construction -/

theorem pyRound_intCast (n : ℤ) : pyRound (n : ℚ) = n := by
  unfold pyRound
  rw [Int.floor_intCast, sub_self]
  norm_num

theorem round1_intCast (n : ℤ) : round1 (n : ℚ) = n := by
  unfold round1
  have h1 : ((n : ℚ) * 10) = ((n * 10 : ℤ) : ℚ) := by push_cast; ring
  rw [h1, pyRound_intCast]
  push_cast
  field_simp

theorem validate_temperature_ok {v : ℚ} (h1 : -50 ≤ v) (h2 : v ≤ 60) :
    validate_temperature v = .ok (round1 v) := by
  unfold validate_temperature
  rw [if_pos ⟨h1, h2⟩]

theorem exceptBind_ok (a : α) (f : α → Except ε β) :
    (Except.ok a >>= f) = f a := rfl

theorem exceptBind_error (e : ε) (f : α → Except ε β) :
    ((Except.error e : Except ε α) >>= f) = Except.error e := rfl

theorem build_eq_ok_iff (t tn tx : ℚ) (h : ℤ) (fl : ℚ) (w : WeatherMain) :
    WeatherMain.build t tn tx h fl = .ok w ↔
      ((-50 ≤ t ∧ t ≤ 60) ∧ (-50 ≤ tn ∧ tn ≤ 60) ∧ (-50 ≤ tx ∧ tx ≤ 60) ∧
        (0 ≤ h ∧ h ≤ 100)) ∧ w = ⟨round1 t, round1 tn, round1 tx, h, fl⟩ := by
  unfold WeatherMain.build validate_temperature
  by_cases h1 : -50 ≤ t ∧ t ≤ 60 <;>
    by_cases h2 : -50 ≤ tn ∧ tn ≤ 60 <;>
      by_cases h3 : -50 ≤ tx ∧ tx ≤ 60 <;>
        by_cases h4 : 0 ≤ h ∧ h ≤ 100 <;>
          simp [h1, h2, h3, h4, exceptBind_ok, exceptBind_error, eq_comm]

theorem build_isOk_iff (t tn tx : ℚ) (h : ℤ) (fl : ℚ) :
    (WeatherMain.build t tn tx h fl).isOk = true ↔
      ((-50 ≤ t ∧ t ≤ 60) ∧ (-50 ≤ tn ∧ tn ≤ 60) ∧ (-50 ≤ tx ∧ tx ≤ 60) ∧
        (0 ≤ h ∧ h ≤ 100)) := by
  constructor
  · intro hk
    cases hw : WeatherMain.build t tn tx h fl with
    | ok w => exact ((build_eq_ok_iff t tn tx h fl w).mp hw).1
    | error e => rw [hw] at hk; simp [Except.isOk, Except.toBool] at hk
  · intro hb
    rw [(build_eq_ok_iff t tn tx h fl ⟨round1 t, round1 tn, round1 tx, h, fl⟩).mpr
      ⟨hb, rfl⟩]
    rfl

theorem build_int_ok (a b c : ℤ) (h : ℤ) (fl : ℚ)
    (ha1 : -50 ≤ a) (ha2 : a ≤ 60) (hb1 : -50 ≤ b) (hb2 : b ≤ 60)
    (hc1 : -50 ≤ c) (hc2 : c ≤ 60) (hh1 : 0 ≤ h) (hh2 : h ≤ 100) :
    WeatherMain.build (a : ℚ) (b : ℚ) (c : ℚ) h fl =
      .ok ⟨(a : ℚ), (b : ℚ), (c : ℚ), h, fl⟩ := by
  rw [build_eq_ok_iff]
  refine ⟨⟨⟨?_, ?_⟩, ⟨?_, ?_⟩, ⟨?_, ?_⟩, hh1, hh2⟩, ?_⟩
  · exact_mod_cast ha1
  · exact_mod_cast ha2
  · exact_mod_cast hb1
  · exact_mod_cast hb2
  · exact_mod_cast hc1
  · exact_mod_cast hc2
  · rw [round1_intCast, round1_intCast, round1_intCast]

end WeatherTool

namespace WeatherTool

/-! ### Helper lemmas: parsing -/

theorem isOk_iff_exists {e : Except ε α} : e.isOk = true ↔ ∃ a, e = .ok a := by
  cases e <;> simp [Except.isOk, Except.toBool]

theorem parse_weather_item_complete (w : ApiWeatherItem) (m d i : String)
    (hm : w.main = some m) (hd : w.description = some d) (hi : w.icon = some i) :
    parse_weather_item w = .ok ⟨m, d, i⟩ := by
  unfold parse_weather_item
  rw [hm, hd, hi]
  rfl

theorem mapM_weather_complete (l : List ApiWeatherItem)
    (hall : l.all (fun w => w.main.isSome && w.description.isSome && w.icon.isSome) = true) :
    ∃ ds : List WeatherDescription, l.mapM parse_weather_item = .ok ds := by
  induction l with
  | nil => exact ⟨[], rfl⟩
  | cons w ws ih =>
    rw [List.all_cons, Bool.and_eq_true, Bool.and_eq_true, Bool.and_eq_true] at hall
    obtain ⟨⟨⟨hm, hd⟩, hi⟩, hws⟩ := hall
    obtain ⟨m, hm⟩ := Option.isSome_iff_exists.mp hm
    obtain ⟨d, hd⟩ := Option.isSome_iff_exists.mp hd
    obtain ⟨i, hi⟩ := Option.isSome_iff_exists.mp hi
    obtain ⟨ds, hds⟩ := ih hws
    refine ⟨⟨m, d, i⟩ :: ds, ?_⟩
    rw [List.mapM_cons, parse_weather_item_complete w m d i hm hd hi]
    simp only [exceptBind_ok, hds]
    rfl

end WeatherTool

namespace WeatherTool

theorem parse_core_missing (data : ApiResponse) (f : String)
    (hmiss : firstRequiredMissing data = some f) :
    parse_core data = .error (.weatherAPIError (keyErrorMsg f)) := by
  obtain ⟨name, main, weather, sysc⟩ := data
  cases main with
  | none =>
    simp [firstRequiredMissing] at hmiss
    subst hmiss
    rfl
  | some m =>
    obtain ⟨t, tn, tx, hu, fl⟩ := m
    cases t with
    | none =>
      simp [firstRequiredMissing] at hmiss
      subst hmiss
      rfl
    | some t =>
      cases tn with
      | none =>
        simp [firstRequiredMissing] at hmiss
        subst hmiss
        rfl
      | some tn =>
        cases tx with
        | none =>
          simp [firstRequiredMissing] at hmiss
          subst hmiss
          rfl
        | some tx =>
          cases hu with
          | none =>
            simp [firstRequiredMissing] at hmiss
            subst hmiss
            rfl
          | some hu =>
            cases fl with
            | none =>
              simp [firstRequiredMissing] at hmiss
              subst hmiss
              rfl
            | some fl =>
              by_cases hcond : (WeatherMain.build t tn tx hu fl).isOk = true ∧
                  (weather.getD []).all
                    (fun w => w.main.isSome && w.description.isSome && w.icon.isSome) = true
              · cases name with
                | some nm =>
                  simp [firstRequiredMissing, hcond.1, hcond.2] at hmiss
                | none =>
                  simp [firstRequiredMissing, hcond.1, hcond.2] at hmiss
                  subst hmiss
                  obtain ⟨mv, hb⟩ := isOk_iff_exists.mp hcond.1
                  obtain ⟨ds, hds⟩ := mapM_weather_complete _ hcond.2
                  unfold parse_core
                  simp only [requireField, exceptBind_ok, hb, hds]
                  rfl
              · exfalso
                rw [Classical.not_and_iff_or_not_not] at hcond
                rcases hcond with hc | hc <;>
                  simp [firstRequiredMissing, Bool.eq_false_iff.mpr hc] at hmiss

end WeatherTool

namespace WeatherTool

theorem parse_core_ok_not_missing (data : ApiResponse)
    (out : String × Option String × WeatherMain × List WeatherDescription)
    (h : parse_core data = .ok out) : anyRequiredMissing data = false := by
  obtain ⟨name, main, weather, sysc⟩ := data
  cases main with
  | none => simp [parse_core, requireField, exceptBind_ok, exceptBind_error] at h
  | some m =>
    obtain ⟨t, tn, tx, hu, fl⟩ := m
    cases t with
    | none => simp [parse_core, requireField, exceptBind_ok, exceptBind_error] at h
    | some t =>
      cases tn with
      | none => simp [parse_core, requireField, exceptBind_ok, exceptBind_error] at h
      | some tn =>
        cases tx with
        | none => simp [parse_core, requireField, exceptBind_ok, exceptBind_error] at h
        | some tx =>
          cases hu with
          | none => simp [parse_core, requireField, exceptBind_ok, exceptBind_error] at h
          | some hu =>
            cases fl with
            | none => simp [parse_core, requireField, exceptBind_ok, exceptBind_error] at h
            | some fl =>
              cases name with
              | some nm => simp [anyRequiredMissing]
              | none =>
                exfalso
                unfold parse_core at h
                simp only [requireField, exceptBind_ok] at h
                cases hb : WeatherMain.build t tn tx hu fl with
                | error e => rw [hb] at h; simp [exceptBind_error] at h
                | ok mv =>
                  rw [hb] at h
                  simp only [exceptBind_ok] at h
                  cases hm : (weather.getD []).mapM parse_weather_item with
                  | error e => rw [hm] at h; simp [exceptBind_error] at h
                  | ok ds => rw [hm] at h; simp [exceptBind_ok, exceptBind_error] at h

theorem parse_response_missing (data : ApiResponse) (now : ℤ) (f : String)
    (hmiss : firstRequiredMissing data = some f) :
    parse_response data now = .error (.weatherAPIError (keyErrorMsg f)) := by
  unfold parse_response
  rw [parse_core_missing data f hmiss]

theorem parse_response_ok_not_missing (data : ApiResponse) (now : ℤ) (wd : WeatherData)
    (h : parse_response data now = .ok wd) : anyRequiredMissing data = false := by
  unfold parse_response at h
  cases hc : parse_core data with
  | ok out => exact parse_core_ok_not_missing data out hc
  | error e => rw [hc] at h; simp at h

theorem build_demo : WeatherMain.build 20 10 30 50 21 = .ok ⟨20, 10, 30, 50, 21⟩ := by
  rw [build_eq_ok_iff]
  have h20 := round1_intCast 20
  have h10 := round1_intCast 10
  have h30 := round1_intCast 30
  push_cast at h20 h10 h30
  refine ⟨by norm_num, ?_⟩
  rw [h20, h10, h30]

theorem parse_response_bodyDemo (t : ℤ) :
    parse_response bodyDemo t = .ok ⟨"paris", none, ⟨20, 10, 30, 50, 21⟩, [], t⟩ := by
  unfold parse_response parse_core bodyDemo
  simp only [requireField, exceptBind_ok, build_demo, Option.getD_none, List.mapM_nil]
  rfl

end WeatherTool

namespace WeatherTool

/-! ### Helper lemmas: `get_weather` paths -/

theorem not_guard_of_strip_ne {city : String} (h : pyStrip city ≠ "") :
    ¬ (city = "" ∨ pyStrip city = "") := by
  rintro (rfl | he)
  · exact h pyStrip_empty
  · exact h he

theorem get_weather_empty (cache : Cache) (now : ℤ) (city : String)
    (fetch : Except WeatherError WeatherData) (h : pyStrip city = "") :
    get_weather cache now city fetch =
      ⟨.error (.weatherAPIError "Nome da cidade nao pode estar vazio"), cache, 0⟩ := by
  unfold get_weather
  rw [if_pos (Or.inr h)]

theorem get_weather_hit (cache : Cache) (now : ℤ) (city : String) (entry : CacheEntry)
    (fetch : Except WeatherError WeatherData) (hne : pyStrip city ≠ "")
    (hfound : cacheLookup cache (normalizeCity city) = some entry)
    (hvalid : is_cache_valid now entry = true) :
    get_weather cache now city fetch = ⟨.ok entry.data, cache, 0⟩ := by
  unfold get_weather
  rw [if_neg (not_guard_of_strip_ne hne)]
  simp only [hfound, hvalid, if_true]

theorem get_weather_stale (cache : Cache) (now : ℤ) (city : String) (entry : CacheEntry)
    (fetch : Except WeatherError WeatherData) (hne : pyStrip city ≠ "")
    (hfound : cacheLookup cache (normalizeCity city) = some entry)
    (hstale : is_cache_valid now entry = false) :
    get_weather cache now city fetch =
      fetchStore (cacheErase cache (normalizeCity city)) now (normalizeCity city) fetch := by
  unfold get_weather
  rw [if_neg (not_guard_of_strip_ne hne)]
  simp only [hfound, hstale, Bool.false_eq_true, if_false]

theorem get_weather_miss (cache : Cache) (now : ℤ) (city : String)
    (fetch : Except WeatherError WeatherData) (hne : pyStrip city ≠ "")
    (hnone : cacheLookup cache (normalizeCity city) = none) :
    get_weather cache now city fetch =
      fetchStore cache now (normalizeCity city) fetch := by
  unfold get_weather
  rw [if_neg (not_guard_of_strip_ne hne)]
  simp only [hnone]

end WeatherTool

namespace WeatherTool

/-! ### Claim theorems -/

/-- Claim C6: for every input city string whose normalization (lowercase,
trim whitespace) is empty, `get_weather` fails with the empty-city
`WeatherAPIError` (the spec taxonomy calls this kind `InvalidInputError`),
leaves the cache unchanged, and performs zero fetch calls — the failure is
decided by the local check before any fetch. -/
theorem C6_empty_city_rejected (cache : Cache) (now : ℤ) (city : String)
    (fetch : Except WeatherError WeatherData)
    (h : normalizeCity city = "") :
    get_weather cache now city fetch =
      ⟨.error (.weatherAPIError "Nome da cidade nao pode estar vazio"), cache, 0⟩ :=
  get_weather_empty cache now city fetch ((pyStrip_pyLower_eq_empty_iff city).mp h)

/-- Witness for C6 at the concrete whitespace-only city `"  "`. -/
theorem C6_empty_city_witness :
    normalizeCity "  " = "" ∧
    get_weather [] 0 "  " fetchFailDemo =
      ⟨.error (.weatherAPIError "Nome da cidade nao pode estar vazio"), [], 0⟩ :=
  ⟨by decide, C6_empty_city_rejected [] 0 "  " fetchFailDemo (by decide)⟩

/-- Claim C2: for every city with a cached entry, calling `get_weather`
at a time at least the freshness window after the entry's insertion
removes the stale entry, triggers exactly one fetch call, returns the
fetch outcome unchanged, and on success stores the new record under the
same normalized key (replacing the old entry); on failure the key is
absent. -/
theorem C2_expiry_refetch (cache : Cache) (now : ℤ) (city : String) (entry : CacheEntry)
    (fetch : Except WeatherError WeatherData)
    (hne : pyStrip city ≠ "")
    (hfound : cacheLookup cache (normalizeCity city) = some entry)
    (hstale : ¬ (now - entry.timestamp < cache_duration)) :
    (get_weather cache now city fetch).fetchCount = 1 ∧
    (get_weather cache now city fetch).result = fetch ∧
    cacheLookup (get_weather cache now city fetch).cache (normalizeCity city) =
      (match fetch with
        | .ok wd => some ⟨wd, now⟩
        | .error _ => none) := by
  have hsf : is_cache_valid now entry = false := by
    simp [is_cache_valid, hstale]
  rw [get_weather_stale cache now city entry fetch hne hfound hsf]
  cases fetch with
  | ok wd => exact ⟨rfl, rfl, cacheLookup_insert_self _ _ _⟩
  | error e => exact ⟨rfl, rfl, cacheLookup_erase_self _ _⟩

/-- Witness for C2: `wdDemo` cached at time 0, looked up again exactly at
the freshness window (600000000 microseconds = 10 minutes) with a
successful fetch: one fetch call, and the entry is replaced under the
same key with the new timestamp. -/
theorem C2_expiry_witness :
    pyStrip "paris" ≠ "" ∧
    cacheLookup cacheDemo (normalizeCity "paris") = some ⟨wdDemo, 0⟩ ∧
    ¬ ((600000000 : ℤ) - (⟨wdDemo, 0⟩ : CacheEntry).timestamp < cache_duration) ∧
    (get_weather cacheDemo 600000000 "paris" (.ok wdDemo)).fetchCount = 1 ∧
    (get_weather cacheDemo 600000000 "paris" (.ok wdDemo)).result = .ok wdDemo ∧
    cacheLookup (get_weather cacheDemo 600000000 "paris" (.ok wdDemo)).cache
      (normalizeCity "paris") = some ⟨wdDemo, 600000000⟩ := by
  have h := C2_expiry_refetch cacheDemo 600000000 "paris" ⟨wdDemo, 0⟩ (.ok wdDemo)
    (by decide) (by decide) (by decide)
  exact ⟨by decide, by decide, by decide, h.1, h.2.1, h.2.2⟩

/-- Claim C10: if `get_weather` finds a stale entry for a key and the
subsequent fetch fails, the stale entry stays removed: the error
propagates, exactly one fetch happened, and the cache afterwards holds no
entry for that key — the eviction persists even though no new record was
stored. -/
theorem C10_eviction_persists (cache : Cache) (now : ℤ) (city : String)
    (entry : CacheEntry) (e : WeatherError)
    (hne : pyStrip city ≠ "")
    (hfound : cacheLookup cache (normalizeCity city) = some entry)
    (hstale : ¬ (now - entry.timestamp < cache_duration)) :
    (get_weather cache now city (.error e)).result = .error e ∧
    (get_weather cache now city (.error e)).fetchCount = 1 ∧
    cacheLookup (get_weather cache now city (.error e)).cache (normalizeCity city) =
      none := by
  have hsf : is_cache_valid now entry = false := by
    simp [is_cache_valid, hstale]
  rw [get_weather_stale cache now city entry (.error e) hne hfound hsf]
  exact ⟨rfl, rfl, cacheLookup_erase_self _ _⟩

/-- Witness for C10: `wdDemo` cached at time 0, looked up at the window
boundary with a failing fetch: the error propagates and the key is gone. -/
theorem C10_eviction_witness :
    pyStrip "paris" ≠ "" ∧
    cacheLookup cacheDemo (normalizeCity "paris") = some ⟨wdDemo, 0⟩ ∧
    ¬ ((600000000 : ℤ) - (⟨wdDemo, 0⟩ : CacheEntry).timestamp < cache_duration) ∧
    (get_weather cacheDemo 600000000 "paris"
        (.error (.networkError "Timeout ao buscar paris"))).result =
      .error (.networkError "Timeout ao buscar paris") ∧
    (get_weather cacheDemo 600000000 "paris"
        (.error (.networkError "Timeout ao buscar paris"))).fetchCount = 1 ∧
    cacheLookup (get_weather cacheDemo 600000000 "paris"
        (.error (.networkError "Timeout ao buscar paris"))).cache
      (normalizeCity "paris") = none := by
  have h := C10_eviction_persists cacheDemo 600000000 "paris" ⟨wdDemo, 0⟩
    (.networkError "Timeout ao buscar paris") (by decide) (by decide) (by decide)
  exact ⟨by decide, by decide, by decide, h.1, h.2.1, h.2.2⟩

end WeatherTool

namespace WeatherTool

/-- Claim C1 (amended): for every city whose lookup at time `T` performed
a successful fetch (miss or expiry path: fetch count 1, record `wd`
returned and stored at `T`), calling `get_weather` again at `T + Δ` with
`Δ` strictly below the 10-minute freshness window returns the identical
record with zero fetch calls and an unchanged cache. -/
theorem C1_fresh_after_fetch (cache : Cache) (T Δ : ℤ) (city : String)
    (fetch1 fetch2 : Except WeatherError WeatherData) (wd : WeatherData)
    (hok : (get_weather cache T city fetch1).result = .ok wd)
    (hfetched : (get_weather cache T city fetch1).fetchCount = 1)
    (hΔ : Δ < cache_duration) :
    get_weather (get_weather cache T city fetch1).cache (T + Δ) city fetch2 =
      ⟨.ok wd, (get_weather cache T city fetch1).cache, 0⟩ := by
  by_cases hcity : pyStrip city = ""
  · rw [get_weather_empty cache T city fetch1 hcity] at hfetched
    simp at hfetched
  · have hvalid2 : ∀ wdx : WeatherData, is_cache_valid (T + Δ) ⟨wdx, T⟩ = true := by
      intro wdx
      simp only [is_cache_valid, decide_eq_true_eq]
      rw [add_sub_cancel_left]
      exact hΔ
    cases hl : cacheLookup cache (normalizeCity city) with
    | some entry =>
      by_cases hv : is_cache_valid T entry = true
      · rw [get_weather_hit cache T city entry fetch1 hcity hl hv] at hfetched
        simp at hfetched
      · have hv2 : is_cache_valid T entry = false := Bool.eq_false_iff.mpr hv
        rw [get_weather_stale cache T city entry fetch1 hcity hl hv2] at hok hfetched ⊢
        cases fetch1 with
        | error e => simp [fetchStore] at hok
        | ok wd1 =>
          simp only [fetchStore] at hok ⊢
          have hwd : wd1 = wd := by simpa using hok
          subst hwd
          rw [get_weather_hit _ (T + Δ) city ⟨wd1, T⟩ fetch2 hcity
            (cacheLookup_insert_self _ _ _) (hvalid2 wd1)]
    | none =>
      rw [get_weather_miss cache T city fetch1 hcity hl] at hok hfetched ⊢
      cases fetch1 with
      | error e => simp [fetchStore] at hok
      | ok wd1 =>
        simp only [fetchStore] at hok ⊢
        have hwd : wd1 = wd := by simpa using hok
        subst hwd
        rw [get_weather_hit _ (T + Δ) city ⟨wd1, T⟩ fetch2 hcity
          (cacheLookup_insert_self _ _ _) (hvalid2 wd1)]

/-- Counterexample to claim C1 as stated (premise "lookup succeeded at
`T`" rather than "successfully fetched at `T`"): `wdDemo` was inserted at
time 0; a lookup at `T` = 599000000 microseconds succeeds via the hit
path (no fetch, cache unchanged), yet a second call at `T + Δ` with
`Δ` = 2000000 microseconds — strictly below the 10-minute window — finds
the entry expired, performs a fetch (count 1, not 0) and returns that
fetch's error instead of the record returned at `T`. -/
theorem C1_hit_counterexample :
    (get_weather cacheDemo 599000000 "paris" fetchFailDemo).result = .ok wdDemo ∧
    (get_weather cacheDemo 599000000 "paris" fetchFailDemo).fetchCount = 0 ∧
    (get_weather cacheDemo 599000000 "paris" fetchFailDemo).cache = cacheDemo ∧
    ((601000000 : ℤ) - 599000000 < cache_duration) ∧
    (get_weather cacheDemo 601000000 "paris" fetchFailDemo).fetchCount = 1 ∧
    (get_weather cacheDemo 601000000 "paris" fetchFailDemo).result =
      .error (.networkError "Timeout ao buscar paris") := by
  decide

/-- Witness for the amended C1: a fetch of `wdDemo` at time 0 into an
empty cache, re-looked-up 599 seconds later. -/
theorem C1_fresh_after_fetch_witness :
    (get_weather [] 0 "paris" (.ok wdDemo)).result = .ok wdDemo ∧
    (get_weather [] 0 "paris" (.ok wdDemo)).fetchCount = 1 ∧
    ((599000000 : ℤ) < cache_duration) ∧
    get_weather (get_weather [] 0 "paris" (.ok wdDemo)).cache (0 + 599000000) "paris"
        fetchFailDemo =
      ⟨.ok wdDemo, (get_weather [] 0 "paris" (.ok wdDemo)).cache, 0⟩ :=
  ⟨by decide, by decide, by decide,
    C1_fresh_after_fetch [] 0 599000000 "paris" (.ok wdDemo) fetchFailDemo wdDemo
      (by decide) (by decide) (by decide)⟩

end WeatherTool

namespace WeatherTool

theorem build_demo2 : WeatherMain.build 20 20 20 50 70 = .ok ⟨20, 20, 20, 50, 70⟩ := by
  rw [build_eq_ok_iff]
  have h20 := round1_intCast 20
  push_cast at h20
  exact ⟨by norm_num, by rw [h20]⟩

/-- Claim C3 (amended): `WeatherMain` construction succeeds iff `temp`,
`temp_min` and `temp_max` lie within `[-50, 60]` and `humidity` within
`[0, 100]`; `feels_like` is NOT validated (the source validator names
only the three temperature fields) and not rounded; on success the three
validated temperatures are rounded to one decimal place and `feels_like`
is stored unchanged. -/
theorem C3_validation_amended (t tn tx : ℚ) (h : ℤ) (fl : ℚ) :
    ((WeatherMain.build t tn tx h fl).isOk = true ↔
      (-50 ≤ t ∧ t ≤ 60) ∧ (-50 ≤ tn ∧ tn ≤ 60) ∧ (-50 ≤ tx ∧ tx ≤ 60) ∧
        (0 ≤ h ∧ h ≤ 100)) ∧
    (∀ w, WeatherMain.build t tn tx h fl = .ok w →
      w = ⟨round1 t, round1 tn, round1 tx, h, fl⟩) :=
  ⟨build_isOk_iff t tn tx h fl,
    fun w hw => ((build_eq_ok_iff t tn tx h fl w).mp hw).2⟩

/-- Counterexample to claim C3 as stated: constructing a `WeatherMain`
with `feels_like` = 70 — outside `[-50, 60]` — succeeds, because the
source validator covers only `temp`, `temp_min`, `temp_max`; the
feels-like field is also stored unrounded and unvalidated. -/
theorem C3_feels_like_counterexample :
    WeatherMain.build 20 20 20 50 70 = .ok ⟨20, 20, 20, 50, 70⟩ ∧
    ¬ ((70 : ℚ) ≤ 60) :=
  ⟨build_demo2, by norm_num⟩

/-- Witness for the amended C3: temperature 70 fails, humidity 101
fails, humidity 100 and 0 succeed, and a successful construction stores
the rounded validated fields. -/
theorem C3_validation_witness :
    (WeatherMain.build 20 20 20 100 70).isOk = true ∧
    ¬ (WeatherMain.build 70 20 20 50 20).isOk = true ∧
    ¬ (WeatherMain.build 20 20 20 101 20).isOk = true ∧
    (WeatherMain.build 20 20 20 0 20).isOk = true ∧
    (⟨20, 20, 20, 50, 70⟩ : WeatherMain) =
      ⟨round1 20, round1 20, round1 20, 50, 70⟩ := by
  refine ⟨?_, ?_, ?_, ?_, ?_⟩
  · exact (C3_validation_amended 20 20 20 100 70).1.mpr (by decide)
  · exact fun hc =>
      absurd ((C3_validation_amended 70 20 20 50 20).1.mp hc).1.2 (by decide)
  · exact fun hc =>
      absurd ((C3_validation_amended 20 20 20 101 20).1.mp hc).2.2.2.2 (by decide)
  · exact (C3_validation_amended 20 20 20 0 20).1.mpr (by decide)
  · exact (C3_validation_amended 20 20 20 50 70).2 ⟨20, 20, 20, 50, 70⟩ build_demo2

/-- Claim C4: for every response with a non-success status (those in
`[400, 600)`, for which `raise_for_status` raises), status 404 fails
with `CityNotFoundError` carrying the queried city name, status 401
fails with `InvalidAPIKeyError` (the spec taxonomy calls this kind
`InvalidCredentialError`), and every other non-success status fails with
the generic `WeatherAPIError` (the spec's `RemoteServiceError`) carrying
the status and raw message; the three-way `if` makes each status map to
exactly one kind.  The non-success statuses are those in `[400, 600)`,
the exact region for which `raise_for_status` raises. -/
theorem C4_status_mapping (city reason : String) (status : ℕ) (body : ApiResponse)
    (now : ℤ) (h1 : 400 ≤ status) (h2 : status < 600) :
    fetch_from_api city (.response status reason body) now =
      .error (if status = 404 then
          .cityNotFoundError ("Cidade " ++ city ++ " nao encontrada")
        else if status = 401 then
          .invalidAPIKeyError "API key invalida"
        else
          .weatherAPIError ("Erro na API: " ++ httpErrorString status reason)) := by
  show (if 400 ≤ status ∧ status < 600 then
      if status = 404 then
        Except.error (WeatherError.cityNotFoundError ("Cidade " ++ city ++ " nao encontrada"))
      else if status = 401 then
        Except.error (WeatherError.invalidAPIKeyError "API key invalida")
      else
        Except.error (WeatherError.weatherAPIError ("Erro na API: " ++ httpErrorString status reason))
    else parse_response body now) = _
  rw [if_pos ⟨h1, h2⟩]
  split_ifs <;> rfl

/-- Witness for C4 at statuses 404, 401 and 500. -/
theorem C4_status_witness :
    fetch_from_api "Narnia" (.response 404 "Not Found" bodyDemo) 0 =
      .error (.cityNotFoundError "Cidade Narnia nao encontrada") ∧
    fetch_from_api "paris" (.response 401 "Unauthorized" bodyDemo) 0 =
      .error (.invalidAPIKeyError "API key invalida") ∧
    fetch_from_api "paris" (.response 500 "Server Error" bodyDemo) 0 =
      .error (.weatherAPIError "Erro na API: 500 Error: Server Error") :=
  ⟨(C4_status_mapping "Narnia" "Not Found" 404 bodyDemo 0 (by decide)
      (by decide)).trans (by decide),
   (C4_status_mapping "paris" "Unauthorized" 401 bodyDemo 0 (by decide)
      (by decide)).trans (by decide),
   (C4_status_mapping "paris" "Server Error" 500 bodyDemo 0 (by decide)
      (by decide)).trans (by decide)⟩

/-- Claim C5: for every success-status body, if the first failure
`_parse_response` meets is a missing documented required field, parsing
fails with the `WeatherAPIError` naming that field (the spec taxonomy's
`MalformedResponseError`); and any body lacking a documented required
field never parses to a record, so a missing field is never replaced by
a silent default. -/
theorem C5_missing_required_field (data : ApiResponse) (now : ℤ) (f : String) :
    (firstRequiredMissing data = some f →
      parse_response data now = .error (.weatherAPIError (keyErrorMsg f))) ∧
    (anyRequiredMissing data = true → ∀ wd, parse_response data now ≠ .ok wd) := by
  constructor
  · exact parse_response_missing data now f
  · intro hmiss wd hok
    rw [parse_response_ok_not_missing data now wd hok] at hmiss
    simp at hmiss

/-- Witness for C5 at a body whose `main` block lacks `temp`. -/
theorem C5_missing_field_witness :
    firstRequiredMissing bodyMissingTempDemo = some "temp" ∧
    anyRequiredMissing bodyMissingTempDemo = true ∧
    parse_response bodyMissingTempDemo 0 =
      .error (.weatherAPIError (keyErrorMsg "temp")) ∧
    parse_response bodyMissingTempDemo 0 ≠ .ok wdDemo :=
  ⟨by decide, by decide,
   (C5_missing_required_field bodyMissingTempDemo 0 "temp").1 (by decide),
   (C5_missing_required_field bodyMissingTempDemo 0 "temp").2 (by decide) wdDemo⟩

end WeatherTool

namespace WeatherTool

/-- Claim C7 (amended): `_parse_response` is deterministic in everything
except the record timestamp, which is `datetime.now()` read at
construction time: two runs on the same body fail identically or
succeed with records agreeing on every field except `timestamp`, which
equals each run's current time. -/
theorem C7_parse_deterministic_amended (data : ApiResponse) (t1 t2 : ℤ) :
    (∀ e, parse_response data t1 = .error e ↔ parse_response data t2 = .error e) ∧
    (∀ w1 w2, parse_response data t1 = .ok w1 → parse_response data t2 = .ok w2 →
      w1.city_name = w2.city_name ∧ w1.country = w2.country ∧ w1.main = w2.main ∧
      w1.weather = w2.weather ∧ w1.timestamp = t1 ∧ w2.timestamp = t2) := by
  unfold parse_response
  cases hc : parse_core data with
  | ok out =>
    obtain ⟨n, c, m, wl⟩ := out
    constructor
    · intro e
      constructor <;> intro h <;> simp at h
    · intro w1 w2 h1 h2
      rw [Except.ok.injEq] at h1 h2
      subst h1
      subst h2
      exact ⟨rfl, rfl, rfl, rfl, rfl, rfl⟩
  | error e2 =>
    constructor
    · intro e
      constructor <;> intro h <;> exact h
    · intro w1 w2 h1
      simp at h1

/-- Counterexample to claim C7 as stated: two runs of the parser on the
same complete body at current times 0 and 1 both succeed, but the two
records are NOT identical — their `timestamp` fields (filled by the
`default_factory=datetime.now` of `WeatherData.timestamp`) differ. -/
theorem C7_timestamp_counterexample :
    parse_response bodyDemo 0 = .ok ⟨"paris", none, ⟨20, 10, 30, 50, 21⟩, [], 0⟩ ∧
    parse_response bodyDemo 1 = .ok ⟨"paris", none, ⟨20, 10, 30, 50, 21⟩, [], 1⟩ ∧
    (⟨"paris", none, ⟨20, 10, 30, 50, 21⟩, [], 0⟩ : WeatherData) ≠
      ⟨"paris", none, ⟨20, 10, 30, 50, 21⟩, [], 1⟩ :=
  ⟨parse_response_bodyDemo 0, parse_response_bodyDemo 1, by decide⟩

/-- Witness for the amended C7 on `bodyDemo` at times 0 and 1. -/
theorem C7_parse_deterministic_witness :
    ((⟨"paris", none, ⟨20, 10, 30, 50, 21⟩, [], 0⟩ : WeatherData).city_name =
      (⟨"paris", none, ⟨20, 10, 30, 50, 21⟩, [], 1⟩ : WeatherData).city_name) ∧
    ((⟨"paris", none, ⟨20, 10, 30, 50, 21⟩, [], 0⟩ : WeatherData).main =
      (⟨"paris", none, ⟨20, 10, 30, 50, 21⟩, [], 1⟩ : WeatherData).main) ∧
    ((⟨"paris", none, ⟨20, 10, 30, 50, 21⟩, [], 0⟩ : WeatherData).timestamp = 0) ∧
    ((⟨"paris", none, ⟨20, 10, 30, 50, 21⟩, [], 1⟩ : WeatherData).timestamp = 1) := by
  have h := (C7_parse_deterministic_amended bodyDemo 0 1).2 _ _
    (parse_response_bodyDemo 0) (parse_response_bodyDemo 1)
  exact ⟨h.1, h.2.2.1, h.2.2.2.2.1, h.2.2.2.2.2⟩

/-- Claim C8 (amended): `clear_cache` removes all cache entries — after
it, `get_cache_info` reports 0 total, 0 valid, 0 expired entries and an
empty key list — but it returns `None` (the entry count is computed only
for the log line), not the number of entries removed. -/
theorem C8_clear_amended (cache : Cache) (now : ℤ) :
    (clear_cache cache).2 = [] ∧
    (clear_cache cache).1 = none ∧
    get_cache_info (clear_cache cache).2 now = ⟨0, 0, 0, 10, []⟩ :=
  ⟨rfl, rfl, rfl⟩

/-- Counterexample to claim C8 as stated: clearing the one-entry cache
`cacheDemo` does not return the number of entries removed (1) — the
method's Python return value is `None`. -/
theorem C8_clear_counterexample :
    cacheDemo.length = 1 ∧
    (clear_cache cacheDemo).1 = none ∧
    (clear_cache cacheDemo).1 ≠ some 1 := by
  decide

/-- Claim C9: both adapters are total on `WeatherRecord`s (they are
plain functions, defined for every record); with an empty description
sequence the agent format's `conditions` field is the sentinel
`"unknown"` and the display string is the template with `"N/A"`; with a
non-empty sequence both use the first description's text. -/
theorem C9_adapters_total (w : WeatherData) :
    (w.weather = [] →
      w.to_agent_format.conditions = "unknown" ∧
      w.to_display_format = displayTemplate w "N/A") ∧
    (∀ d rest, w.weather = d :: rest →
      w.to_agent_format.conditions = d.description ∧
      w.to_display_format = displayTemplate w d.description) := by
  constructor
  · intro h
    unfold WeatherData.to_agent_format WeatherData.to_display_format displayTemplate
    rw [h]
    exact ⟨rfl, rfl⟩
  · intro d rest h
    unfold WeatherData.to_agent_format WeatherData.to_display_format displayTemplate
    rw [h]
    exact ⟨rfl, rfl⟩

/-- Witness for C9 on the empty-description record `wdDemo` and the
non-empty-description record `wdCloudsDemo`. -/
theorem C9_adapters_witness :
    wdDemo.to_agent_format.conditions = "unknown" ∧
    wdDemo.to_display_format = displayTemplate wdDemo "N/A" ∧
    wdCloudsDemo.to_agent_format.conditions = "nublado" ∧
    wdCloudsDemo.to_display_format = displayTemplate wdCloudsDemo "nublado" := by
  have h1 := (C9_adapters_total wdDemo).1 rfl
  have h2 := (C9_adapters_total wdCloudsDemo).2 ⟨"Clouds", "nublado", "04d"⟩ [] rfl
  exact ⟨h1.1, h1.2, h2.1, h2.2⟩

end WeatherTool
